import Mathlib

/-!
Verification of the MCP PostgreSQL workshop repository.

Shallow embedding of the Python modules under `src/python/workshop/`
(`mcp_server.py`, `config.py`, `mcp_client.py`, `web_interface.py`,
`stream_event_handler.py`, `utilities.py`).  Each Python function that a
claim is about is translated into an executable Lean definition; effects
(database execution, network calls, the item queue) are made explicit as
parameters or returned values, and Python exceptions are modelled with
`Except` / explicit error constructors.
-/

/-- Substring containment on character lists (Python's `in` on `str`):
`infixOf p l` is true when `p` occurs contiguously inside `l`. -/
def infixOf (p : List Char) : List Char → Bool
  | [] => p.isEmpty
  | c :: t => p.isPrefixOf (c :: t) || infixOf p t

namespace McpServer

/-- Outcome of one call of the `execute_sales_query` tool:
the string returned to the caller, and whether the query was actually
submitted to the database provider (`provider.execute_query`). -/
structure QueryOutcome where
  output : String
  executed : Bool
  deriving DecidableEq, Repr

/-- The guidance string returned by `execute_sales_query` when the query
text does not contain `LIMIT` (from `mcp_server.py` line 212). -/
def limitGuidance : String :=
  "Error: Query must include \x27LIMIT 20\x27 to prevent returning too many rows. Please modify your query."

/-- The error string returned for an empty query (`mcp_server.py` line 208). -/
def emptyQueryError : String := "Error: postgresql_query parameter is required"

/-- Python's `"LIMIT" in postgresql_query.upper()` check
(`mcp_server.py` line 211): case-insensitive substring containment.
Upper-casing is modelled characterwise with `Char.toUpper`, which agrees
with Python's `str.upper` on ASCII SQL text. -/
def containsLIMIT (q : String) : Bool :=
  infixOf "LIMIT".toList (q.toList.map Char.toUpper)

/-- Embedding of the tool `execute_sales_query` from `mcp_server.py`
(lines 206-219).  The database is abstracted as `db : String → Except
String String` (`provider.execute_query`, which either returns a result
string or raises; the surrounding `except` turns a raise into an error
string).  The guard order follows the source: the emptiness check first,
then the `LIMIT` substring check, and only then execution. -/
def execute_sales_query (db : String → Except String String) (q : String) : QueryOutcome :=
  if q = "" then
    { output := emptyQueryError, executed := false }
  else if containsLIMIT q = false then
    { output := limitGuidance, executed := false }
  else
    match db q with
    | Except.ok r => { output := "Query Results:\n" ++ r, executed := true }
    | Except.error e => { output := "Error executing database query: " ++ e, executed := true }

/-- A stub database used to instantiate closed statements: it would answer
every query, so any non-execution observed with it comes from the guards. -/
def dbStub : String → Except String String := fun _ => Except.ok "stub rows"

end McpServer

namespace Config

/-- The three environment-driven settings read by `config.py`:
`PROJECT_ENDPOINT`, `AZURE_BING_CONNECTION_ID` (`os.environ`), and
`MODEL_DEPLOYMENT_NAME` (`os.getenv`).  An empty string models an
unset/falsy value, which is exactly what the validation code tests. -/
structure ConfigEnv where
  PROJECT_ENDPOINT : String
  AZURE_BING_CONNECTION_ID : String
  MODEL_DEPLOYMENT_NAME : String
  deriving DecidableEq, Repr

/-- Embedding of `Config.validate_required_env_vars` (`config.py` lines
34-48).  The `required_vars` dict holds only `PROJECT_ENDPOINT` and
`AZURE_BING_CONNECTION_ID`; missing ones are joined into a single
`ValueError` message.  `MODEL_DEPLOYMENT_NAME` is checked afterwards by a
separate `if`, with its own message.  A raised `ValueError` is modelled
as `Except.error` carrying the message. -/
def validate_required_env_vars (c : ConfigEnv) : Except String Unit :=
  let required : List (String × String) :=
    [("PROJECT_ENDPOINT", c.PROJECT_ENDPOINT),
     ("AZURE_BING_CONNECTION_ID", c.AZURE_BING_CONNECTION_ID)]
  let missing := (required.filter (fun p => p.2 = "")).map (fun p => p.1)
  if missing.isEmpty then
    if c.MODEL_DEPLOYMENT_NAME = "" then
      Except.error "MODEL_DEPLOYMENT_NAME environment variable is required"
    else
      Except.ok ()
  else
    Except.error ("Missing required environment variables: " ++ String.intercalate ", " missing)

/-- Substring occurrence in an error message, used to state which missing
settings a raised error names. -/
def mentions (msg name : String) : Bool :=
  infixOf name.toList msg.toList

end Config

namespace MCPClient

/-- One content block of an MCP tool result (`result.content[i]`):
`text` is `some t` when the block has a `text` attribute (the
`hasattr(content_item, "text")` test), and `asString` is the `str(...)`
rendering used as fallback. -/
structure ContentItem where
  text : Option String
  asString : String
  deriving DecidableEq, Repr

/-- Embedding of `MCPClient._extract_content` (`mcp_client.py` lines
87-95): empty (or absent) content yields the no-result sentinel,
otherwise the first block's text, falling back to its string rendering. -/
def extract_content : List ContentItem → String
  | [] => "No result returned from tool"
  | item :: _ =>
    match item.text with
    | some t => t
    | none => item.asString

/-- The environment's behaviour during one `call_tool_async` invocation:
the outcome of establishing a session when none is open
(`_ensure_session`, which re-raises its failure), and the outcome of
`session.call_tool` (a result, or a raised exception carrying a
message). -/
structure CallEv where
  ensure : Except String Unit
  call : Except String (List ContentItem)

/-- The formatted error string built in the `except` branch of
`call_tool_async` (`mcp_client.py` line 108). -/
def errorMessage (toolName msg : String) : String :=
  "Error calling tool " ++ toolName ++ ": " ++ msg

/-- The `try` body of `call_tool_async`: ensure a session (only consulted
when no session is open), then call the tool.  The first raised
exception aborts the body. -/
def bodyOutcome (sessionOpen : Bool) (ev : CallEv) : Except String (List ContentItem) :=
  match (if sessionOpen then Except.ok () else ev.ensure) with
  | Except.error m => Except.error m
  | Except.ok _ => ev.call

/-- Embedding of `MCPClient.call_tool_async` (`mcp_client.py` lines
97-110).  Returns the string handed to the caller together with the
session state afterwards (`true` iff `self._session` is still set): on
any exception from the body, `close_session()` runs (session becomes
`None`) and the formatted error string is returned; on success the
session stays open and the extracted content is returned. -/
def call_tool_async (toolName : String) (sessionOpen : Bool) (ev : CallEv) : String × Bool :=
  match bodyOutcome sessionOpen ev with
  | Except.error m => (errorMessage toolName m, false)
  | Except.ok content => (extract_content content, true)

end MCPClient

namespace ToolSynthesis

/-- What claim C2 needs of a ToolDescriptor fetched from the MCP server:
its name and the named parameters its declared input schema specifies
(the schema's `properties`; descriptions are irrelevant here). -/
structure ToolDescriptor where
  name : String
  params : List String
  deriving DecidableEq, Repr

/-- Calling convention of a synthesized adapter: an explicit list of
named parameters, or `**kwargs`. -/
inductive Signature
  | named (ps : List String)
  | kwargs
  deriving DecidableEq, Repr

/-- Embedding of the signature choice made by `make_tool_func`
(`mcp_client.py` lines 195-227): the adapter for the tool named
`execute_sales_query` is built with the explicit parameter
`postgresql_query`; every other adapter is built accepting `**kwargs`. -/
def builtSignature (t : ToolDescriptor) : Signature :=
  if t.name = "execute_sales_query" then Signature.named ["postgresql_query"]
  else Signature.kwargs

/-- The signature the spec prescribes from the descriptor alone: the
schema's named parameters when it specifies any, else `**kwargs`. -/
def schemaSignature (t : ToolDescriptor) : Signature :=
  if t.params.isEmpty then Signature.kwargs else Signature.named t.params

/-- The tool catalog of this repository's MCP server: the `@mcp.tool`
functions of `mcp_server.py`, with the named parameters FastMCP derives
for each input schema from the Python signature (only
`execute_sales_query` declares a parameter, `postgresql_query`). -/
def serverTools : List ToolDescriptor :=
  [{ name := "get_customers_table_schema", params := [] },
   { name := "get_products_table_schema", params := [] },
   { name := "get_orders_table_schema", params := [] },
   { name := "get_inventory_table_schema", params := [] },
   { name := "get_stores_table_schema", params := [] },
   { name := "get_categories_table_schema", params := [] },
   { name := "get_product_types_table_schema", params := [] },
   { name := "get_order_items_table_schema", params := [] },
   { name := "execute_sales_query", params := ["postgresql_query"] },
   { name := "get_current_utc_date", params := [] }]

end ToolSynthesis

namespace Cleanup

/-- The four teardown actions of the cleanup path
(`utilities.cleanup_agent_resources` together with
`cleanup_global_mcp_client`). -/
inductive Step
  | closeMcp
  | deleteFiles
  | deleteThread
  | deleteAgent
  deriving DecidableEq, Repr

/-- Which of the teardown actions fail (raise) when attempted, in one
run of cleanup. -/
structure Failures where
  mcpFails : Bool
  filesFail : Bool
  threadFail : Bool
  agentFail : Bool
  deriving DecidableEq, Repr

/-- Embedding of `Utilities.cleanup_agent_resources` (`utilities.py`
lines 140-164) as called from `AgentManager.cleanup`
(`agent_manager.py` lines 94-103).  Input: whether agent, thread and
client are all present, and which actions would fail.  Output: the list
of actions actually attempted, in order, and whether the call raises.
`cleanup_global_mcp_client` swallows its own failure; the three Azure
deletions share one `try` block whose `except` logs, so the first
failure among them skips the rest; `AgentManager.cleanup` wraps the
whole call in another `try`/`except`. -/
def cleanup_agent_resources (haveResources : Bool) (f : Failures) : List Step × Bool :=
  let azureSteps : List Step :=
    if haveResources = false then []
    else if f.filesFail then [Step.deleteFiles]
    else if f.threadFail then [Step.deleteFiles, Step.deleteThread]
    else [Step.deleteFiles, Step.deleteThread, Step.deleteAgent]
  (Step.closeMcp :: azureSteps, false)

end Cleanup

namespace Stream

/-- An item placed on the per-request token queue by the streaming event
handler in `web_interface.py`: a text delta, a downloaded-file info
payload, or an error (`type` field of the enqueued dict).  The `None`
end-of-stream sentinel is modelled as `Option.none` around this type. -/
inductive StreamItem
  | text (s : String)
  | file (info : String)
  | err (msg : String)
  deriving DecidableEq, Repr

/-- A one-field JSON object as produced by `json.dumps` on the dicts of
`_generate_stream` (payload escaping is immaterial here; what matters is
that the serialization of an object begins with a brace). -/
def jsonObj (k v : String) : String :=
  "\x7b\"" ++ k ++ "\": \"" ++ v ++ "\"\x7d"

/-- The SSE frame yielded for one queue item (`web_interface.py` lines
224-235): `data: <json>\n\n` with the item rendered under its `content`,
`file` or `error` key. -/
def itemFrame : StreamItem → String
  | StreamItem.text s => "data: " ++ jsonObj "content" s ++ "\n\n"
  | StreamItem.file i => "data: " ++ jsonObj "file" i ++ "\n\n"
  | StreamItem.err m => "data: " ++ jsonObj "error" m ++ "\n\n"

/-- The terminal SSE frame (`web_interface.py` line 255). -/
def doneFrame : String := "data: [DONE]\n\n"

/-- The item yielded when a queue get times out
(`web_interface.py` line 238). -/
def timeoutItem : StreamItem := StreamItem.err "Response timeout after 60 seconds"

/-- How the background `run_agent` task exits: the stream completes
normally after the handler enqueued some items, or it raises after some
items, in which case the `except` enqueues an error item. -/
inductive RunOutcome
  | completes (items : List StreamItem)
  | fails (items : List StreamItem) (e : String)

/-- The full queue content produced by `run_agent` (`web_interface.py`
lines 189-210): the handler's items, then on failure one error item from
the `except` branch, and in every case the `None` sentinel from the
`finally` block, last. -/
def runQueue : RunOutcome → List (Option StreamItem)
  | RunOutcome.completes its => its.map some ++ [none]
  | RunOutcome.fails its e => its.map some ++ [some (StreamItem.err e), none]

/-- Decrease the remaining number of queue gets before the 60-second
timeout fires (`none` = the timeout never fires). -/
def decFuel : Option Nat → Option Nat
  | none => none
  | some n => some (n - 1)

/-- The consumer loop of `_generate_stream` (`web_interface.py` lines
216-239): each iteration waits for a queue item; if the wait times out a
timeout error frame is yielded and the loop breaks; the `None` sentinel
breaks the loop; any other item is yielded as its SSE frame.  `fuel`
counts the gets remaining until a timeout would fire. -/
def consume : Option Nat → List (Option StreamItem) → List String
  | fuel, q =>
    if fuel = some 0 then [itemFrame timeoutItem]
    else
      match q with
      | [] => []
      | none :: _ => []
      | some it :: rest => itemFrame it :: consume (decFuel fuel) rest

/-- The frames yielded by one `_generate_stream` request after the run
task has been started: the consumer loop's frames followed by the single
completion frame yielded after the loop (`web_interface.py` line 255). -/
def generate_stream (o : RunOutcome) (fuel : Option Nat) : List String :=
  consume fuel (runQueue o) ++ [doneFrame]

end Stream

namespace Relay

/-- One `on_thread_message` call of `WebStreamEventHandler`
(`web_interface.py` lines 163-174): the parent handler
(`stream_event_handler.py` lines 33-37) downloads the message's
attachments and extends `self.generated_files` with them; then, if
`self.generated_files` is non-empty, every entry of that accumulated
list is enqueued as a file item.  State: (`generated_files`, queue of
enqueued file infos); `msgFiles` are the message's attachments in
order. -/
def on_thread_message (generatedFiles queue msgFiles : List String) :
    List String × List String :=
  let gf := generatedFiles ++ msgFiles
  if gf.isEmpty then (gf, queue) else (gf, queue ++ gf)

/-- Fold `on_thread_message` over the completed messages of one run,
starting from the fresh handler state. -/
def processMessages (msgs : List (List String)) : List String × List String :=
  msgs.foldl (fun st m => on_thread_message st.1 st.2 m) ([], [])

end Relay

namespace Files

/-- `Path.resolve()` on a path given as components below the filesystem
root: `..` removes the previous component (staying at the root when
there is none, as POSIX resolution does), `.` and empty components
vanish. -/
def resolveComps (acc : List String) : List String → List String
  | [] => acc
  | c :: rest =>
    if c = ".." then resolveComps acc.dropLast rest
    else if c = "." || c = "" then resolveComps acc rest
    else resolveComps (acc ++ [c]) rest

/-- Canonical form of a path. -/
def resolvePath (p : List String) : List String := resolveComps [] p

/-- The filesystem visible to the endpoint: the set of existing regular
files, as canonical paths. -/
structure FS where
  files : List (List String)

/-- Responses of `GET /files/{filename}`: the 404 `File not found`
HTTPException, the 403 `Access denied` HTTPException, or a
`FileResponse` serving the file at the given path. -/
inductive Response
  | notFound
  | accessDenied
  | fileResponse (p : List String)
  deriving DecidableEq, Repr

/-- Embedding of `WebInterface.serve_file` (`web_interface.py` lines
260-274).  `shared` is `utilities.shared_files_path`; the serving
directory is `shared/files`; the requested `filename` may contain `..`
components.  Existence is checked first (404), then
`resolve().relative_to(files_dir.resolve())`, which succeeds exactly
when the resolved serving directory is a component prefix of the
resolved target (403 otherwise), and only then is the file served. -/
def serve_file (fs : FS) (shared : List String) (filename : List String) : Response :=
  if resolvePath (shared ++ ["files"] ++ filename) ∈ fs.files then
    if (resolvePath (shared ++ ["files"])).isPrefixOf
        (resolvePath (shared ++ ["files"] ++ filename)) then
      Response.fileResponse (shared ++ ["files"] ++ filename)
    else Response.accessDenied
  else Response.notFound

end Files

namespace Upload

/-- Continuation byte of a UTF-8 sequence. -/
def isCont (b : Nat) : Bool := 128 ≤ b && b ≤ 191

/-- Validity of a byte sequence as UTF-8 (RFC 3629: no overlong forms,
no surrogates, nothing above U+10FFFF) — the discipline Python's
`bytes.decode("utf-8")` enforces, raising `UnicodeDecodeError`
otherwise. -/
def utf8Valid : List Nat → Bool
  | [] => true
  | b :: rest =>
    if b ≤ 127 then utf8Valid rest
    else if 194 ≤ b && b ≤ 223 then
      match rest with
      | b1 :: r => isCont b1 && utf8Valid r
      | [] => false
    else if b = 224 then
      match rest with
      | b1 :: b2 :: r => (160 ≤ b1 && b1 ≤ 191) && isCont b2 && utf8Valid r
      | _ => false
    else if (225 ≤ b && b ≤ 236) || b = 238 || b = 239 then
      match rest with
      | b1 :: b2 :: r => isCont b1 && isCont b2 && utf8Valid r
      | _ => false
    else if b = 237 then
      match rest with
      | b1 :: b2 :: r => (128 ≤ b1 && b1 ≤ 159) && isCont b2 && utf8Valid r
      | _ => false
    else if b = 240 then
      match rest with
      | b1 :: b2 :: b3 :: r => (144 ≤ b1 && b1 ≤ 191) && isCont b2 && isCont b3 && utf8Valid r
      | _ => false
    else if 241 ≤ b && b ≤ 243 then
      match rest with
      | b1 :: b2 :: b3 :: r => isCont b1 && isCont b2 && isCont b3 && utf8Valid r
      | _ => false
    else if b = 244 then
      match rest with
      | b1 :: b2 :: b3 :: r => (128 ≤ b1 && b1 ≤ 143) && isCont b2 && isCont b3 && utf8Valid r
      | _ => false
    else false

/-- Python's `content.decode("utf-8")`: fails exactly on invalid UTF-8.
The decoded text is represented byte-wise (exact for ASCII; the claims
here depend only on success versus failure, never on multi-byte
payload content). -/
def decodeUtf8 (bs : List Nat) : Option String :=
  if utf8Valid bs then some (String.mk (bs.map (fun b => Char.ofNat b))) else none

/-- Split a character list on `.` (Python `str.split(".")`). -/
def splitOnDot : List Char → List (List Char)
  | [] => [[]]
  | c :: t =>
    let r := splitOnDot t
    if c = '.' then [] :: r
    else
      match r with
      | [] => [[c]]
      | h :: t2 => (c :: h) :: t2

/-- Embedding of the extension computation of `upload_file`
(`web_interface.py` lines 73-75):
`file.filename.lower().split(".")[-1] if "." in file.filename else ""`. -/
def fileExtension (filename : String) : String :=
  if filename.toList.contains '.' then
    String.mk ((splitOnDot (filename.toList.map Char.toLower)).getLastD [])
  else ""

/-- The dict returned by the upload endpoint: either `{"error": msg}` or
`{"content": text, "filename": name}`. -/
inductive UploadResult
  | err (msg : String)
  | ok (content : String) (filename : String)
  deriving DecidableEq, Repr

/-- Whether the returned dict is the error form. -/
def UploadResult.isErr : UploadResult → Bool
  | UploadResult.err _ => true
  | UploadResult.ok _ _ => false

/-- The size-rejection message (`web_interface.py` line 69). -/
def sizeLimitError : String := "File size too large (max 10MB)"

/-- Placeholder text for PDF files (`web_interface.py` line 81). -/
def pdfPlaceholder (filename : String) : String :=
  "[PDF file content - filename: " ++ filename ++
    "]\nNote: PDF parsing not implemented yet. Please describe what you\x27d like me to help you with regarding this PDF file."

/-- Placeholder text for Word files (`web_interface.py` lines 83-84). -/
def wordPlaceholder (filename : String) : String :=
  "[Word document content - filename: " ++ filename ++
    "]\nNote: Word document parsing not implemented yet. Please describe what you\x27d like me to help you with regarding this document."

/-- Placeholder text for undecodable files of other extensions
(`web_interface.py` line 90). -/
def binaryPlaceholder (filename : String) : String :=
  "[Binary file - filename: " ++ filename ++
    "]\nNote: Cannot read binary file content. Please describe what you\x27d like me to help you with regarding this file."

/-- The extension dispatch of `upload_file` (`web_interface.py` lines
77-90) computing `file_text`: `txt`/`md` decode strictly (a
`UnicodeDecodeError` escapes, there is no inner handler in this branch),
`pdf` and `doc`/`docx` yield placeholder notices, and everything else
decodes with an inner `try` falling back to the binary notice. -/
def extractText (ext filename : String) (content : List Nat) : Except String String :=
  if ext = "txt" || ext = "md" then
    match decodeUtf8 content with
    | some t => Except.ok t
    | none => Except.error "UnicodeDecodeError: invalid utf-8"
  else if ext = "pdf" then Except.ok (pdfPlaceholder filename)
  else if ext = "doc" || ext = "docx" then Except.ok (wordPlaceholder filename)
  else
    match decodeUtf8 content with
    | some t => Except.ok t
    | none => Except.ok (binaryPlaceholder filename)

/-- Combination of the optional user message with the extracted file
text (`web_interface.py` lines 93-98). -/
def combineMessage (message : Option String) (filename ftext : String) : String :=
  match message with
  | some m => m ++ "\n\nFile content from \x27" ++ filename ++ "\x27:\n\n" ++ ftext
  | none => "Please analyze this file content from \x27" ++ filename ++ "\x27:\n\n" ++ ftext

/-- Embedding of `WebInterface.upload_file` (`web_interface.py` lines
63-103).  `content` is the uploaded byte string, `message` the optional
accompanying form field (`none` covers Python's falsy `None`/empty
string).  The outer `try`/`except` catches every exception — including
the `UnicodeDecodeError` escaping the `txt`/`md` branch — and converts
it to an error dict, so the endpoint returns a value in every case. -/
def upload_file (filename : String) (content : List Nat) (message : Option String) : UploadResult :=
  if 10 * 1024 * 1024 < content.length then UploadResult.err sizeLimitError
  else
    match extractText (fileExtension filename) filename content with
    | Except.error e => UploadResult.err ("Error processing file: " ++ e)
    | Except.ok ftext => UploadResult.ok (combineMessage message filename ftext) filename

end Upload

/-! ## Claims about `execute_sales_query` (C8, C10) -/

/-- C8 (as stated) is false: the empty query string lacks a LIMIT clause
(it does not contain `LIMIT` at all), yet the tool returns the
parameter-required error, not the LIMIT guidance string. -/
theorem c8_empty_query_not_guidance :
    McpServer.containsLIMIT "" = false ∧
    (McpServer.execute_sales_query McpServer.dbStub "").output = McpServer.emptyQueryError ∧
    McpServer.emptyQueryError ≠ McpServer.limitGuidance := by
  refine ⟨by decide, rfl, by decide⟩

/-- C8 (amended): for every NONEMPTY query string whose upper-cased text
does not contain the substring `LIMIT`, `execute_sales_query` returns the
literal guidance string instructing the caller to add `LIMIT 20`, and the
query is not executed against the database. -/
theorem c8_no_limit_returns_guidance (db : String → Except String String) (q : String)
    (hne : q ≠ "") (hlim : McpServer.containsLIMIT q = false) :
    McpServer.execute_sales_query db q =
      { output := McpServer.limitGuidance, executed := false } := by
  unfold McpServer.execute_sales_query
  rw [if_neg hne, hlim]
  simp

/-- Witness for `c8_no_limit_returns_guidance` at the concrete query
`SELECT * FROM customers`. -/
theorem c8_no_limit_returns_guidance_witness :
    McpServer.execute_sales_query McpServer.dbStub "SELECT * FROM customers" =
      { output := McpServer.limitGuidance, executed := false } :=
  c8_no_limit_returns_guidance McpServer.dbStub "SELECT * FROM customers"
    (by decide) (by decide)

/-- C10: for every database backend, the empty query string makes
`execute_sales_query` return exactly the string
`Error: postgresql_query parameter is required`, without executing the
query; in particular the output is never the LIMIT guidance string, so
the emptiness check takes precedence over the LIMIT check. -/
theorem c10_empty_query_precedence (db : String → Except String String) :
    McpServer.execute_sales_query db "" =
      { output := McpServer.emptyQueryError, executed := false } ∧
    McpServer.emptyQueryError ≠ McpServer.limitGuidance := by
  exact ⟨rfl, by decide⟩

/-! ## Claim about configuration validation (C3) -/

/-- C3 (as stated) is false: with both `PROJECT_ENDPOINT` and
`MODEL_DEPLOYMENT_NAME` missing (and `AZURE_BING_CONNECTION_ID` set), the
single error raised names only `PROJECT_ENDPOINT`; the missing deployment
name is not enumerated in it. -/
theorem c3_deployment_name_not_enumerated :
    Config.validate_required_env_vars
        { PROJECT_ENDPOINT := "", AZURE_BING_CONNECTION_ID := "conn", MODEL_DEPLOYMENT_NAME := "" } =
      Except.error "Missing required environment variables: PROJECT_ENDPOINT" ∧
    Config.mentions "Missing required environment variables: PROJECT_ENDPOINT"
        "MODEL_DEPLOYMENT_NAME" = false := by
  constructor
  · rfl
  · decide

/-- C3 (amended): validation fails eagerly with a single error that
enumerates every missing one of the two `os.environ` settings
(`PROJECT_ENDPOINT`, `AZURE_BING_CONNECTION_ID`); the deployment name is
validated by a second, separate check, whose error is raised only when
the first two are present; validation succeeds exactly when all three
settings are non-empty. -/
theorem c3_validation_two_phase (c : Config.ConfigEnv) :
    (Config.validate_required_env_vars c = Except.ok () ↔
      (c.PROJECT_ENDPOINT ≠ "" ∧ c.AZURE_BING_CONNECTION_ID ≠ "" ∧
       c.MODEL_DEPLOYMENT_NAME ≠ "")) ∧
    (c.PROJECT_ENDPOINT = "" → c.AZURE_BING_CONNECTION_ID = "" →
      Config.validate_required_env_vars c =
        Except.error "Missing required environment variables: PROJECT_ENDPOINT, AZURE_BING_CONNECTION_ID") ∧
    (c.PROJECT_ENDPOINT = "" → c.AZURE_BING_CONNECTION_ID ≠ "" →
      Config.validate_required_env_vars c =
        Except.error "Missing required environment variables: PROJECT_ENDPOINT") ∧
    (c.PROJECT_ENDPOINT ≠ "" → c.AZURE_BING_CONNECTION_ID = "" →
      Config.validate_required_env_vars c =
        Except.error "Missing required environment variables: AZURE_BING_CONNECTION_ID") ∧
    (c.PROJECT_ENDPOINT ≠ "" → c.AZURE_BING_CONNECTION_ID ≠ "" →
      c.MODEL_DEPLOYMENT_NAME = "" →
      Config.validate_required_env_vars c =
        Except.error "MODEL_DEPLOYMENT_NAME environment variable is required") := by
  obtain ⟨pe, bc, mdn⟩ := c
  unfold Config.validate_required_env_vars
  by_cases hpe : pe = "" <;> by_cases hbc : bc = "" <;> by_cases hmdn : mdn = "" <;>
    simp_all <;> try rfl

/-- Witness for `c3_validation_two_phase`: with both env-var settings
missing the two names are enumerated in one error. -/
theorem c3_validation_two_phase_witness :
    Config.validate_required_env_vars
        { PROJECT_ENDPOINT := "", AZURE_BING_CONNECTION_ID := "", MODEL_DEPLOYMENT_NAME := "gpt" } =
      Except.error "Missing required environment variables: PROJECT_ENDPOINT, AZURE_BING_CONNECTION_ID" :=
  (c3_validation_two_phase
      { PROJECT_ENDPOINT := "", AZURE_BING_CONNECTION_ID := "", MODEL_DEPLOYMENT_NAME := "gpt" }).2.1
    rfl rfl

/-! ## Claim about `call_tool_async` (C1) -/

/-- C1: for every tool name, session state and environment behaviour,
`call_tool_async` resolves to a string: when the try body raises with
message `m`, the caller receives exactly the formatted error string and
the session is closed (so a subsequent call whose session establishment
and tool call succeed runs with a freshly established session); when the
body succeeds the session stays open, and an empty content list yields
the no-result sentinel text. -/
theorem c1_call_tool_async_contract (toolName : String) (sessionOpen : Bool)
    (ev : MCPClient.CallEv) :
    (∀ m, MCPClient.bodyOutcome sessionOpen ev = Except.error m →
      MCPClient.call_tool_async toolName sessionOpen ev =
        (MCPClient.errorMessage toolName m, false)) ∧
    (∀ c, MCPClient.bodyOutcome sessionOpen ev = Except.ok c →
      (MCPClient.call_tool_async toolName sessionOpen ev).2 = true ∧
      (c = [] →
        (MCPClient.call_tool_async toolName sessionOpen ev).1 =
          "No result returned from tool")) ∧
    (∀ ev2 : MCPClient.CallEv, ∀ c2, ev2.ensure = Except.ok () → ev2.call = Except.ok c2 →
      (MCPClient.call_tool_async toolName
          (MCPClient.call_tool_async toolName sessionOpen ev).2 ev2).2 = true) := by
  refine ⟨?_, ?_, ?_⟩
  · intro m hm
    unfold MCPClient.call_tool_async
    rw [hm]
  · intro c hc
    unfold MCPClient.call_tool_async
    rw [hc]
    exact ⟨rfl, fun he => by rw [he]; rfl⟩
  · intro ev2 c2 hens hcall
    rcases h2 : (MCPClient.call_tool_async toolName sessionOpen ev).2 with _ | _ <;>
      · unfold MCPClient.call_tool_async MCPClient.bodyOutcome
        simp [hens, hcall]

/-- Witness for `c1_call_tool_async_contract`: with an open session whose
tool call raises `connection lost`, the result is the formatted error
string and the closed-session flag. -/
theorem c1_call_tool_async_contract_witness :
    MCPClient.call_tool_async "execute_sales_query" true
        { ensure := Except.ok (), call := Except.error "connection lost" } =
      ("Error calling tool execute_sales_query: connection lost", false) :=
  (c1_call_tool_async_contract "execute_sales_query" true
      { ensure := Except.ok (), call := Except.error "connection lost" }).1
    "connection lost" rfl

/-! ## Claim about the tool synthesis layer (C2) -/

/-- C2: for every ToolDescriptor fetched from this repository's tool
server, the signature `make_tool_func` builds (explicit
`postgresql_query` parameter for `execute_sales_query`, `**kwargs`
otherwise) coincides with the signature prescribed by the descriptor's
declared input schema (its named parameters when it specifies any,
`**kwargs` otherwise). -/
theorem c2_built_signature_matches_schema (t : ToolSynthesis.ToolDescriptor)
    (ht : t ∈ ToolSynthesis.serverTools) :
    ToolSynthesis.builtSignature t = ToolSynthesis.schemaSignature t := by
  fin_cases ht <;> rfl

/-- Witness for `c2_built_signature_matches_schema` at the
`execute_sales_query` descriptor. -/
theorem c2_built_signature_matches_schema_witness :
    ToolSynthesis.builtSignature { name := "execute_sales_query", params := ["postgresql_query"] } =
      ToolSynthesis.schemaSignature { name := "execute_sales_query", params := ["postgresql_query"] } :=
  c2_built_signature_matches_schema
    { name := "execute_sales_query", params := ["postgresql_query"] } (by decide)

/-! ## Claim about cleanup (C5) -/

/-- C5 (as stated) is false: when the remote-file deletion step fails,
the remaining steps (thread deletion, agent deletion) are not attempted,
because the three Azure deletions share a single `try` block. -/
theorem c5_files_failure_aborts_rest :
    Cleanup.cleanup_agent_resources true
        { mcpFails := false, filesFail := true, threadFail := false, agentFail := false } =
      ([Cleanup.Step.closeMcp, Cleanup.Step.deleteFiles], false) ∧
    Cleanup.Step.deleteThread ∉
      (Cleanup.cleanup_agent_resources true
          { mcpFails := false, filesFail := true, threadFail := false, agentFail := false }).1 ∧
    Cleanup.Step.deleteAgent ∉
      (Cleanup.cleanup_agent_resources true
          { mcpFails := false, filesFail := true, threadFail := false, agentFail := false }).1 := by
  refine ⟨rfl, by decide, by decide⟩

/-- C5 (amended): cleanup never raises, and calling it twice never
raises either; the MCP-session close is attempted first and its failure
never affects the remaining steps; but the three remote deletions share
one `try` block: they all run only while no earlier one of them fails —
a files-deletion failure skips thread and agent deletion, and a
thread-deletion failure skips agent deletion. -/
theorem c5_cleanup_best_effort (hr : Bool) (f g : Cleanup.Failures) :
    (Cleanup.cleanup_agent_resources hr f).2 = false ∧
    (Cleanup.cleanup_agent_resources hr g).2 = false ∧
    Cleanup.Step.closeMcp ∈ (Cleanup.cleanup_agent_resources hr f).1 ∧
    ((Cleanup.cleanup_agent_resources hr
        { mcpFails := true, filesFail := f.filesFail, threadFail := f.threadFail,
          agentFail := f.agentFail }).1 =
      (Cleanup.cleanup_agent_resources hr
        { mcpFails := false, filesFail := f.filesFail, threadFail := f.threadFail,
          agentFail := f.agentFail }).1) ∧
    (hr = true → f.filesFail = true →
      (Cleanup.cleanup_agent_resources hr f).1 =
        [Cleanup.Step.closeMcp, Cleanup.Step.deleteFiles]) ∧
    (hr = true → f.filesFail = false → f.threadFail = true →
      (Cleanup.cleanup_agent_resources hr f).1 =
        [Cleanup.Step.closeMcp, Cleanup.Step.deleteFiles, Cleanup.Step.deleteThread]) ∧
    (hr = true → f.filesFail = false → f.threadFail = false →
      (Cleanup.cleanup_agent_resources hr f).1 =
        [Cleanup.Step.closeMcp, Cleanup.Step.deleteFiles, Cleanup.Step.deleteThread,
         Cleanup.Step.deleteAgent]) := by
  obtain ⟨fm, ff, ft, fa⟩ := f
  cases hr <;> cases ff <;> cases ft <;>
    simp [Cleanup.cleanup_agent_resources]

/-- Witness for `c5_cleanup_best_effort`: with nothing failing, all four
steps are attempted and nothing is raised. -/
theorem c5_cleanup_best_effort_witness :
    (Cleanup.cleanup_agent_resources true
        { mcpFails := false, filesFail := false, threadFail := false, agentFail := false }).1 =
      [Cleanup.Step.closeMcp, Cleanup.Step.deleteFiles, Cleanup.Step.deleteThread,
       Cleanup.Step.deleteAgent] :=
  (c5_cleanup_best_effort true
      { mcpFails := false, filesFail := false, threadFail := false, agentFail := false }
      { mcpFails := false, filesFail := false, threadFail := false, agentFail := false }).2.2.2.2.2.2
    rfl rfl rfl

/-! ## Claim about the SSE stream terminal frame (C4) -/

/-- Every SSE frame for a queue item is strictly longer than the 14
characters of `data: [DONE]\n\n`. -/
theorem itemFrame_length (it : Stream.StreamItem) : 14 < (Stream.itemFrame it).length := by
  have l1 : ("data: ").length = 6 := by decide
  have l2 : ("\x7b\"content\": \"").length = 13 := by decide
  have l3 : ("\x7b\"file\": \"").length = 10 := by decide
  have l4 : ("\x7b\"error\": \"").length = 11 := by decide
  have l5 : ("\"\x7d").length = 2 := by decide
  have l6 : ("\n\n").length = 2 := by decide
  cases it <;>
    simp [Stream.itemFrame, Stream.jsonObj, String.length_append, l1, l2, l3, l4, l5, l6] <;>
    omega

/-- No item frame is the terminal frame. -/
theorem itemFrame_ne_done (it : Stream.StreamItem) : Stream.itemFrame it ≠ Stream.doneFrame := by
  intro h
  have h1 := itemFrame_length it
  rw [h] at h1
  exact absurd h1 (by decide)

/-- Every frame yielded by the consumer loop is the frame of some queue
item (possibly the timeout error item). -/
theorem consume_mem (q : List (Option Stream.StreamItem)) :
    ∀ (fuel : Option Nat) (s : String),
      s ∈ Stream.consume fuel q → ∃ it, s = Stream.itemFrame it := by
  induction q with
  | nil =>
    intro fuel s hs
    unfold Stream.consume at hs
    split at hs
    · exact ⟨Stream.timeoutItem, by simpa using hs⟩
    · simp at hs
  | cons h t ih =>
    intro fuel s hs
    unfold Stream.consume at hs
    split at hs
    · exact ⟨Stream.timeoutItem, by simpa using hs⟩
    · cases h with
      | none => simp at hs
      | some it =>
        simp only [List.mem_cons] at hs
        rcases hs with hs | hs
        · exact ⟨it, hs⟩
        · exact ih (Stream.decFuel fuel) s hs

/-- The consumer loop itself never yields the terminal frame. -/
theorem consume_count_done (fuel : Option Nat) (q : List (Option Stream.StreamItem)) :
    (Stream.consume fuel q).count Stream.doneFrame = 0 := by
  rw [List.count_eq_zero]
  intro hmem
  obtain ⟨it, hit⟩ := consume_mem q fuel Stream.doneFrame hmem
  exact itemFrame_ne_done it hit.symm

/-- C4: for every run outcome (normal completion or failure of the run
task) and every timeout behaviour of the consumer loop, the end sentinel
`None` is the last item the run task enqueues (it comes from the
`finally` block), and the SSE output of `_generate_stream` contains
exactly one terminal `data: [DONE]` frame. -/
theorem c4_exactly_one_done_frame (o : Stream.RunOutcome) (fuel : Option Nat) :
    (Stream.runQueue o).getLast? = some none ∧
    (Stream.generate_stream o fuel).count Stream.doneFrame = 1 := by
  constructor
  · cases o <;> simp [Stream.runQueue]
  · unfold Stream.generate_stream
    rw [List.count_append, consume_count_done]
    simp

/-! ## Claim about file items in the stream (C6) -/

/-- C6 evaluated at the failing input: with one completed message
carrying attachment `a` followed by a second carrying attachment `b`,
the handler enqueues the file items `a, a, b` — the first message's
attachment is enqueued again when the second message completes, because
the handler iterates the accumulated `generated_files` list.  A single
completed message behaves as the claim states. -/
theorem c6_duplicate_file_items :
    (Relay.processMessages [["a"]]).2 = ["a"] ∧
    (Relay.processMessages [["a"], ["b"]]).2 = ["a", "a", "b"] ∧
    (Relay.processMessages [["a"], ["b"]]).2.count "a" = 2 := by
  decide

/-! ## Claim about path-escape handling in file serving (C7) -/

/-- C7: whenever the resolved target of `GET /files/{filename}` lies
outside the resolved serving directory, `serve_file` never answers with
a `FileResponse`, and when that external target exists it answers
exactly access-denied (403); a non-existent external target yields the
404 branch, which still never serves the file. -/
theorem c7_path_escape_denied (fs : Files.FS) (shared filename : List String)
    (hout : (Files.resolvePath (shared ++ ["files"])).isPrefixOf
        (Files.resolvePath (shared ++ ["files"] ++ filename)) = false) :
    (∀ p, Files.serve_file fs shared filename ≠ Files.Response.fileResponse p) ∧
    (Files.resolvePath (shared ++ ["files"] ++ filename) ∈ fs.files →
      Files.serve_file fs shared filename = Files.Response.accessDenied) ∧
    (Files.serve_file fs shared filename = Files.Response.notFound ∨
      Files.serve_file fs shared filename = Files.Response.accessDenied) := by
  unfold Files.serve_file
  split_ifs with hmem hpre
  · rw [hout] at hpre
    exact absurd hpre (by decide)
  · exact ⟨fun p h => Files.Response.noConfusion h, fun _ => rfl, Or.inr rfl⟩
  · exact ⟨fun p h => Files.Response.noConfusion h, fun h2 => absurd h2 hmem, Or.inl rfl⟩

/-- Witness for `c7_path_escape_denied`: the classic
`/files/../../../etc/passwd` escape against a filesystem in which
`/etc/passwd` exists is answered with access-denied. -/
theorem c7_path_escape_denied_witness :
    Files.serve_file { files := [["etc", "passwd"]] } ["app", "shared"]
        ["..", "..", "..", "etc", "passwd"] =
      Files.Response.accessDenied :=
  (c7_path_escape_denied { files := [["etc", "passwd"]] } ["app", "shared"]
      ["..", "..", "..", "etc", "passwd"] (by decide)).2.1 (by decide)

/-! ## Claim about the upload size boundary (C9) -/

/-- The only exception the text-extraction step can raise is the
decode error of the `txt`/`md` branch. -/
theorem extractText_error_msg (ext filename : String) (content : List Nat) (e : String)
    (h : Upload.extractText ext filename content = Except.error e) :
    e = "UnicodeDecodeError: invalid utf-8" := by
  unfold Upload.extractText at h
  split at h
  · rcases hd : Upload.decodeUtf8 content with _ | t <;> rw [hd] at h
    · exact (Except.error.inj h).symm
    · exact absurd h (by simp)
  · split at h
    · exact absurd h (by simp)
    · split at h
      · exact absurd h (by simp)
      · rcases hd : Upload.decodeUtf8 content with _ | t <;> rw [hd] at h <;>
          exact absurd h (by simp)

/-- C9 (as stated) is false: a 1-byte `.txt` upload whose content is the
invalid UTF-8 byte `0xFF` is far below the 10 MiB ceiling, yet the
endpoint returns an error dict (the decode failure caught by the outer
handler), so "error exactly when the content exceeds 10 MiB" does not
hold. -/
theorem c9_small_invalid_text_is_error :
    (Upload.upload_file "a.txt" [255] none).isErr = true ∧
    Upload.upload_file "a.txt" [255] none ≠ Upload.UploadResult.err Upload.sizeLimitError ∧
    [255].length ≤ 10 * 1024 * 1024 := by
  refine ⟨by decide, by decide, by decide⟩

/-- C9 (amended): the upload endpoint always returns a structured value,
and it returns the `File size too large` error exactly when the content
exceeds 10 MiB — so 10 MiB + 1 byte yields that error and exactly 10 MiB
never does; a file of at most 10 MiB whose extension needs no text
decoding (e.g. a PDF) succeeds, while a `txt`/`md` file of admissible
size may still fail with a processing-error dict when its bytes are not
valid UTF-8. -/
theorem c9_size_boundary (filename : String) (content : List Nat) (message : Option String) :
    (Upload.upload_file filename content message = Upload.UploadResult.err Upload.sizeLimitError ↔
      10 * 1024 * 1024 < content.length) ∧
    (content.length ≤ 10 * 1024 * 1024 → Upload.fileExtension filename = "pdf" →
      ∃ s, Upload.upload_file filename content message = Upload.UploadResult.ok s filename) := by
  constructor
  · constructor
    · intro h
      by_contra hlen
      push_neg at hlen
      unfold Upload.upload_file at h
      rw [if_neg (not_lt.mpr hlen)] at h
      rcases hx : Upload.extractText (Upload.fileExtension filename) filename content
        with e | t <;> rw [hx] at h
      · have he := extractText_error_msg _ _ _ _ hx
        subst he
        exact absurd (Upload.UploadResult.err.inj h) (by decide)
      · exact Upload.UploadResult.noConfusion h
    · intro h
      unfold Upload.upload_file
      rw [if_pos h]
  · intro hlen hext
    unfold Upload.upload_file
    rw [if_neg (not_lt.mpr hlen), hext]
    have hpdf : Upload.extractText "pdf" filename content =
        Except.ok (Upload.pdfPlaceholder filename) := by
      unfold Upload.extractText
      simp
    rw [hpdf]
    exact ⟨Upload.combineMessage message filename (Upload.pdfPlaceholder filename), rfl⟩

/-- Witness for `c9_size_boundary`: a PDF of exactly 10 MiB + 1 byte is
rejected with the size error, and one of exactly 10 MiB succeeds. -/
theorem c9_size_boundary_witness :
    Upload.upload_file "a.pdf" (List.replicate (10 * 1024 * 1024 + 1) 0) none =
      Upload.UploadResult.err Upload.sizeLimitError ∧
    ∃ s, Upload.upload_file "a.pdf" (List.replicate (10 * 1024 * 1024) 0) none =
      Upload.UploadResult.ok s "a.pdf" := by
  constructor
  · exact (c9_size_boundary "a.pdf" (List.replicate (10 * 1024 * 1024 + 1) 0) none).1.mpr
      (by rw [List.length_replicate]; omega)
  · exact (c9_size_boundary "a.pdf" (List.replicate (10 * 1024 * 1024) 0) none).2
      (by rw [List.length_replicate]) (by decide)
